import Mathlib

/-!
Verification of the USB discovery state machine (`src/discovery.rs` of the
`usbh` crate): the `DiscoveryState` enum, `start_discovery` and
`process_discovery`.

The state machine itself is embedded directly from the source. Its external
collaborators (the descriptor byte-grammar parsers in `descriptor::parse`,
the `Event` enum, the host handle with its received-data buffer and
`get_descriptor` transfer issuer, and the driver set) live in files of the
repository that are not available, so they are modelled from the spec, as
marked on each definition.

Machine integers are modelled as `Nat`; the `u8` increment `n + 1` in the
`ConfigDesc` arm is taken modulo 256 (release-mode wrapping semantics).
Panics (`unwrap` on a failed transfer issue, `unreachable!` on terminal
states) are modelled by returning `none`.
-/

namespace Usbh

/-- Modelled from the spec: a parsed descriptor — "a type tag (byte) and an
associated payload view" (spec §3). -/
structure Descriptor where
  descriptor_type : Nat
  data : List Nat
deriving DecidableEq, Repr

/-- Modelled from the spec: the result of parsing an (18-byte) device
descriptor; only the number-of-configurations field is consumed by the
discovery machine (spec §2, §6). -/
structure DeviceDescriptor where
  num_configurations : Nat
deriving DecidableEq, Repr

/-- Modelled from the spec: `descriptor::parse::any_descriptor` — "given a
byte buffer, yields one parsed descriptor (type tag + payload slice) plus the
unconsumed remainder" (spec §2), "failing on malformed input" (spec §6).
USB descriptor framing: first byte is the frame length (including the 2-byte
header), second byte is the type tag, payload is the rest of the frame. -/
def any_descriptor (buf : List Nat) : Option (List Nat × Descriptor) :=
  match buf with
  | len :: dtype :: _ =>
      if 2 ≤ len ∧ len ≤ buf.length then
        some (buf.drop len, ⟨dtype, (buf.take len).drop 2⟩)
      else
        none
  | _ => none

/-- Modelled from the spec: `descriptor::parse::device_descriptor` — "parse a
device descriptor's configuration count from a descriptor payload, failing on
malformed input" (spec §6). The payload of an 18-byte device descriptor frame
holds 16 bytes; `bNumConfigurations` is its last byte. -/
def device_descriptor (data : List Nat) : Option DeviceDescriptor :=
  if data.length = 16 then some ⟨data.getD 15 0⟩ else none

/-- Modelled from the spec: `descriptor::parse::configuration_descriptor_length`
— "parse a configuration descriptor's declared total length from its header
payload, failing on malformed input" (spec §6). `wTotalLength` is the
little-endian 16-bit field at the start of the header payload. -/
def configuration_descriptor_length (data : List Nat) : Option Nat :=
  match data with
  | w0 :: w1 :: _ => some (w0 + 256 * w1)
  | _ => none

/-- The discovery state, embedded from `DiscoveryState` in `discovery.rs`.
The two `u8` fields of `ConfigDescLen`/`ConfigDesc` are modelled as `Nat`. -/
inductive DiscoveryState where
  | DeviceDesc : DiscoveryState
  | ConfigDescLen : Nat → Nat → DiscoveryState
  | ConfigDesc : Nat → Nat → DiscoveryState
  | Done : DiscoveryState
  | ParseError : DiscoveryState
deriving DecidableEq, Repr

/-- `true` exactly on the two terminal states. -/
def DiscoveryState.isTerminal : DiscoveryState → Bool
  | .Done => true
  | .ParseError => true
  | _ => false

/-- Modelled from the spec: the `Event` surface this core consumes — "a
variant carrying control-in data received with device address and byte
length; other variants are passed through unchanged" (spec §3). All other
variants are collapsed into `Other` with a tag. -/
inductive Event where
  | ControlInData : Nat → Nat → Event
  | Other : Nat → Event
deriving DecidableEq, Repr

/-- Modelled from the spec: the host handle. `received` is the most recently
received buffer (read truncated to a given byte length, spec §6); `busBusy`
makes the transfer issuer fail ("fails only on precondition violation (bus
busy)", spec §6). -/
structure Host where
  received : List Nat
  busBusy : Bool
deriving DecidableEq, Repr

/-- A GET_DESCRIPTOR control-in request as issued through
`host.get_descriptor` (device address, descriptor type, index, expected
length; recipient is always `Device` and the sub-address always `None` at
every call site in `discovery.rs`, so they are omitted). -/
structure Request where
  dev : Nat
  descType : Nat
  index : Nat
  length : Nat
deriving DecidableEq, Repr

/-- One driver callback: `driver.descriptor(dev_addr, descriptor_type, data)`
for the driver at position `drv` of the driver slice. -/
structure Call where
  drv : Nat
  dev : Nat
  descType : Nat
  data : List Nat
deriving DecidableEq, Repr

/-- `descriptor::TYPE_DEVICE` (standard USB device descriptor type). -/
def TYPE_DEVICE : Nat := 1

/-- `descriptor::TYPE_CONFIGURATION` (standard USB configuration descriptor
type). -/
def TYPE_CONFIGURATION : Nat := 2

/-- The observable outcome of one successful (non-panicking) call:
the returned state, the control transfers issued through `get_descriptor`
(in order), and the driver callbacks made (in order). -/
structure StepOut where
  state : DiscoveryState
  reqs : List Request
  log : List Call
deriving DecidableEq, Repr

/-- The dispatch of one parsed descriptor to every driver in registration
order (`for driver in drivers { driver.descriptor(...) }`). -/
def notifyAll (dev numDrivers : Nat) (d : Descriptor) : List Call :=
  (List.range numDrivers).map (fun i => ⟨i, dev, d.descriptor_type, d.data⟩)

/-- Fuel-indexed body of the descriptor-walking loop in the `ConfigDesc` arm
of `process_discovery`: parse a frame, dispatch it, continue on the remainder
if non-empty. Returns the frames dispatched (in buffer order) and whether
the loop ran to completion (`false` means a parse failure ended it). Each
successfully parsed frame consumes at least two bytes, so a fuel of
`buf.length` always suffices; at fuel 0 the buffer is empty, where the loop
fails the frame parse, matching the fuel-exhausted answer. -/
def walkFramesAux : Nat → List Nat → List Descriptor × Bool
  | 0, _ => ([], false)
  | fuel + 1, buf =>
      match any_descriptor buf with
      | none => ([], false)
      | some (rest, d) =>
          if rest.length > 0 then
            let r := walkFramesAux fuel rest
            (d :: r.1, r.2)
          else
            ([d], true)

/-- The descriptor-walking loop of the `ConfigDesc` arm, run on a buffer. -/
def walkFrames (buf : List Nat) : List Descriptor × Bool :=
  walkFramesAux buf.length buf

/-- `start_discovery` from `discovery.rs`: issue
GET_DESCRIPTOR(Device, index 0, length 18) and return `DeviceDesc`.
`none` models the `unwrap` panic when the transfer issuer fails. -/
def start_discovery (dev_addr : Nat) (host : Host) :
    Option (DiscoveryState × List Request) :=
  if host.busBusy then none
  else some (.DeviceDesc, [⟨dev_addr, TYPE_DEVICE, 0, 18⟩])

/-- `process_discovery` from `discovery.rs`, as a function from the event,
device address, current state, number of registered drivers and host handle
to an optional `StepOut` (`none` models a panic: `unwrap` on a failed
transfer issue, or `unreachable!` on a terminal state). -/
def process_discovery (event : Event) (dev_addr : Nat)
    (state : DiscoveryState) (numDrivers : Nat) (host : Host) :
    Option StepOut :=
  match state with
  | .DeviceDesc =>
    match event with
    | .ControlInData _ length =>
      let data := host.received.take length
      match any_descriptor data with
      | none => some ⟨.ParseError, [], []⟩
      | some (_, d) =>
        let log := notifyAll dev_addr numDrivers d
        match device_descriptor d.data with
        | none => some ⟨.ParseError, [], log⟩
        | some dd =>
          if host.busBusy then none
          else
            some ⟨.ConfigDescLen 0 dd.num_configurations,
                  [⟨dev_addr, TYPE_CONFIGURATION, 0, 9⟩], log⟩
    | _ => some ⟨state, [], []⟩
  | .ConfigDescLen n m =>
    match event with
    | .ControlInData _ length =>
      let data := host.received.take length
      match any_descriptor data with
      | none => some ⟨.ParseError, [], []⟩
      | some (_, d) =>
        match configuration_descriptor_length d.data with
        | none => some ⟨.ParseError, [], []⟩
        | some total_length =>
          if host.busBusy then none
          else
            some ⟨.ConfigDesc n m,
                  [⟨dev_addr, TYPE_CONFIGURATION, n, total_length⟩], []⟩
    | _ => some ⟨state, [], []⟩
  | .ConfigDesc n m =>
    match event with
    | .ControlInData _ length =>
      let data := host.received.take length
      let r := walkFrames data
      let log := (r.1).flatMap (notifyAll dev_addr numDrivers)
      if r.2 then
        if (n + 1) % 256 < m then
          if host.busBusy then none
          else
            some ⟨.ConfigDescLen ((n + 1) % 256) m,
                  [⟨dev_addr, TYPE_CONFIGURATION, (n + 1) % 256, 9⟩], log⟩
        else
          some ⟨.Done, [], log⟩
      else
        some ⟨.ParseError, [], log⟩
    | _ => some ⟨state, [], []⟩
  | .Done => none
  | .ParseError => none

/-- "The buffer is malformed at the point the state parses it": for
`DeviceDesc`, the frame parse or the device-descriptor parse fails; for
`ConfigDescLen`, the frame parse or the total-length extraction fails; for
`ConfigDesc`, the frame-walking loop hits a parse failure. Terminal states
parse nothing. -/
def malformedFor (buf : List Nat) : DiscoveryState → Prop
  | .DeviceDesc =>
      any_descriptor buf = none ∨
      ∃ rest d, any_descriptor buf = some (rest, d) ∧
        device_descriptor d.data = none
  | .ConfigDescLen _ _ =>
      any_descriptor buf = none ∨
      ∃ rest d, any_descriptor buf = some (rest, d) ∧
        configuration_descriptor_length d.data = none
  | .ConfigDesc _ _ => (walkFrames buf).2 = false
  | .Done => False
  | .ParseError => False

/-- States reachable from `start_discovery` by (non-panicking) calls to
`process_discovery`, for arbitrary events, addresses, drivers and hosts. -/
inductive Reachable : DiscoveryState → Prop where
  | start : Reachable .DeviceDesc
  | step : ∀ (s : DiscoveryState) (ev : Event) (dev nd : Nat) (host : Host)
      (out : StepOut), Reachable s →
      process_discovery ev dev s nd host = some out → Reachable out.state

/-- The invariant that actually holds on reachable `ConfigDescLen`/`ConfigDesc`
states: `n < m`, except that a device descriptor reporting zero
configurations yields `n = m = 0`. -/
def stateInv : DiscoveryState → Prop
  | .ConfigDescLen n m => n < m ∨ (n = 0 ∧ m = 0)
  | .ConfigDesc n m => n < m ∨ (n = 0 ∧ m = 0)
  | _ => True

/-! ## Helper lemmas -/

theorem notifyAll_succ (dev n : Nat) (d : Descriptor) :
    notifyAll dev (n + 1) d =
      notifyAll dev n d ++ [⟨n, dev, d.descriptor_type, d.data⟩] := by
  simp [notifyAll, List.range_succ]

theorem filter_notifyAll_ge (dev nd i : Nat) (d : Descriptor) (h : nd ≤ i) :
    (notifyAll dev nd d).filter (fun c => c.drv == i) = [] := by
  apply List.filter_eq_nil_iff.mpr
  intro c hc
  simp only [notifyAll, List.mem_map, List.mem_range] at hc
  obtain ⟨j, hj, rfl⟩ := hc
  simp
  omega

theorem filter_notifyAll (dev nd i : Nat) (d : Descriptor) (h : i < nd) :
    (notifyAll dev nd d).filter (fun c => c.drv == i) =
      [⟨i, dev, d.descriptor_type, d.data⟩] := by
  induction nd with
  | zero => omega
  | succ n ih =>
    rw [notifyAll_succ, List.filter_append]
    by_cases hi : i < n
    · rw [ih hi]
      have : ¬ (n == i) = true := by simp; omega
      simp [List.filter, this]
    · have hie : i = n := by omega
      subst hie
      rw [filter_notifyAll_ge dev i i d (le_refl i)]
      simp [List.filter]

theorem countPerDriver (dev nd i : Nat) (hi : i < nd)
    (frames : List Descriptor) :
    ((frames.flatMap (notifyAll dev nd)).filter
        (fun c => c.drv == i)).length = frames.length := by
  induction frames with
  | nil => rfl
  | cons d fs ih =>
    simp only [List.flatMap_cons, List.filter_append, List.length_append, ih,
      filter_notifyAll dev nd i d hi, List.length_cons, List.length_nil]
    omega

theorem process_dev_fields (ev : Event) (dev nd : Nat) (st : DiscoveryState)
    (host : Host) (out : StepOut)
    (h : process_discovery ev dev st nd host = some out) :
    (∀ r ∈ out.reqs, r.dev = dev) ∧ (∀ c ∈ out.log, c.dev = dev) := by
  cases st <;> cases ev <;> simp only [process_discovery] at h <;>
    repeat' split at h
  all_goals (try cases h)
  all_goals simp_all [notifyAll, List.mem_flatMap, List.mem_map, List.mem_range]
  all_goals (intro c x hx j hj hc; subst hc; rfl)

theorem stateInv_step (ev : Event) (dev nd : Nat) (s : DiscoveryState)
    (host : Host) (out : StepOut)
    (h : process_discovery ev dev s nd host = some out)
    (hs : stateInv s) : stateInv out.state := by
  cases s <;> cases ev <;> simp only [process_discovery] at h <;>
    repeat' split at h
  all_goals (try cases h)
  all_goals simp_all [stateInv]
  all_goals omega

/-! ## The claims -/

/-- C7: for every device address, `start` (with the bus idle, its contractual
precondition) returns the `DeviceDesc` state and issues exactly one control
transfer: GET_DESCRIPTOR(Device, index 0, length 18). -/
theorem start_issues_device_descriptor_request (dev : Nat) (host : Host)
    (h : host.busBusy = false) :
    start_discovery dev host =
      some (.DeviceDesc, [⟨dev, TYPE_DEVICE, 0, 18⟩]) := by
  simp [start_discovery, h]

/-- Witness for C7 at a concrete device address and idle host. -/
theorem start_issues_device_descriptor_request_witness :
    start_discovery 1 ⟨[], false⟩ =
      some (.DeviceDesc, [⟨1, TYPE_DEVICE, 0, 18⟩]) :=
  start_issues_device_descriptor_request 1 ⟨[], false⟩ rfl

/-- C9: calling `process` on a terminal state (`Done` or `ParseError`) panics
(modelled as `none`) for every event, and `start` panics when the transfer
issuer reports failure (bus busy). -/
theorem terminal_process_and_busy_start_panic (ev : Event) (dev nd : Nat)
    (host : Host) :
    process_discovery ev dev .Done nd host = none ∧
    process_discovery ev dev .ParseError nd host = none ∧
    (host.busBusy = true → start_discovery dev host = none) := by
  refine ⟨rfl, rfl, ?_⟩
  intro h
  simp [start_discovery, h]

/-- Witness for C9 at a concrete event and busy host. -/
theorem terminal_process_and_busy_start_panic_witness :
    process_discovery (.Other 0) 1 .Done 0 ⟨[], true⟩ = none ∧
    process_discovery (.Other 0) 1 .ParseError 0 ⟨[], true⟩ = none ∧
    start_discovery 1 ⟨[], true⟩ = none :=
  ⟨(terminal_process_and_busy_start_panic (.Other 0) 1 0 ⟨[], true⟩).1,
   (terminal_process_and_busy_start_panic (.Other 0) 1 0 ⟨[], true⟩).2.1,
   (terminal_process_and_busy_start_panic (.Other 0) 1 0 ⟨[], true⟩).2.2 rfl⟩

/-- Counterexample to C6: in the terminal state `Done`, a non-"control-in
data received" event does not return the state unchanged — the code hits
`unreachable!` (a panic, modelled as `none`). -/
theorem terminal_non_control_in_not_noop :
    process_discovery (.Other 0) 1 .Done 0 ⟨[], false⟩ ≠
      some ⟨.Done, [], []⟩ := by
  decide

/-- C6 (amended): for every NON-TERMINAL state, a non-"control-in data
received" event returns the input state unchanged, issuing no transfer and
making no driver call; on terminal states such a call panics instead. -/
theorem non_control_in_event_noop (ev : Event) (dev : Nat)
    (st : DiscoveryState) (nd : Nat) (host : Host)
    (hterm : st.isTerminal = false)
    (hev : ∀ a l, ev ≠ .ControlInData a l) :
    process_discovery ev dev st nd host = some ⟨st, [], []⟩ := by
  cases ev with
  | ControlInData a l => exact absurd rfl (hev a l)
  | Other t => cases st <;> simp_all [process_discovery, DiscoveryState.isTerminal]

/-- Witness for amended C6 at a concrete non-terminal state and event. -/
theorem non_control_in_event_noop_witness :
    process_discovery (.Other 7) 2 (.ConfigDescLen 0 3) 4 ⟨[1, 2], true⟩ =
      some ⟨.ConfigDescLen 0 3, [], []⟩ :=
  non_control_in_event_noop (.Other 7) 2 (.ConfigDescLen 0 3) 4 ⟨[1, 2], true⟩
    rfl (fun _ _ h => Event.noConfusion h)

/-- C2: in `DeviceDesc`, a control-in buffer parsing to a descriptor frame
`d` whose payload parses as a device descriptor `dd` transitions to
`ConfigDescLen(0, dd.num_configurations)`, issues
GET_DESCRIPTOR(Configuration, index 0, length 9), and notifies every driver
exactly once with the frame's type tag and payload. -/
theorem device_desc_step (a len dev nd : Nat) (host : Host)
    (rest : List Nat) (d : Descriptor) (dd : DeviceDescriptor)
    (hparse : any_descriptor (host.received.take len) = some (rest, d))
    (hdev : device_descriptor d.data = some dd)
    (hbus : host.busBusy = false) :
    process_discovery (.ControlInData a len) dev .DeviceDesc nd host =
      some ⟨.ConfigDescLen 0 dd.num_configurations,
            [⟨dev, TYPE_CONFIGURATION, 0, 9⟩], notifyAll dev nd d⟩ ∧
    ∀ i, i < nd →
      (notifyAll dev nd d).filter (fun c => c.drv == i) =
        [⟨i, dev, d.descriptor_type, d.data⟩] := by
  constructor
  · simp [process_discovery, hparse, hdev, hbus]
  · intro i hi
    exact filter_notifyAll dev nd i d hi

/-- Witness for C2: an 18-byte device descriptor reporting 2 configurations,
one registered driver. -/
theorem device_desc_step_witness :
    process_discovery (.ControlInData 0 18) 3 .DeviceDesc 1
        ⟨[18, 1, 0, 0, 0, 0, 0, 0, 0, 0, 0, 0, 0, 0, 0, 0, 0, 2], false⟩ =
      some ⟨.ConfigDescLen 0 2, [⟨3, TYPE_CONFIGURATION, 0, 9⟩],
            [⟨0, 3, 1, [0, 0, 0, 0, 0, 0, 0, 0, 0, 0, 0, 0, 0, 0, 0, 2]⟩]⟩ := by
  have h := (device_desc_step 0 18 3 1
    ⟨[18, 1, 0, 0, 0, 0, 0, 0, 0, 0, 0, 0, 0, 0, 0, 0, 0, 2], false⟩
    [] ⟨1, [0, 0, 0, 0, 0, 0, 0, 0, 0, 0, 0, 0, 0, 0, 0, 2]⟩ ⟨2⟩
    (by decide) (by decide) rfl).1
  rw [h]
  decide

/-- C3: in `ConfigDescLen(n, m)`, a control-in buffer parsing to a frame
whose payload yields a declared total length `L` transitions to
`ConfigDesc(n, m)` and issues GET_DESCRIPTOR(Configuration, index `n`,
length `L`), dispatching nothing to any driver. -/
theorem config_desc_len_step (a len dev n m nd : Nat) (host : Host)
    (rest : List Nat) (d : Descriptor) (L : Nat)
    (hparse : any_descriptor (host.received.take len) = some (rest, d))
    (hlen : configuration_descriptor_length d.data = some L)
    (hbus : host.busBusy = false) :
    process_discovery (.ControlInData a len) dev (.ConfigDescLen n m) nd host =
      some ⟨.ConfigDesc n m, [⟨dev, TYPE_CONFIGURATION, n, L⟩], []⟩ := by
  simp [process_discovery, hparse, hlen, hbus]

/-- Witness for C3: a 9-byte configuration header declaring total length 34. -/
theorem config_desc_len_step_witness :
    process_discovery (.ControlInData 0 9) 1 (.ConfigDescLen 0 2) 1
        ⟨[9, 2, 34, 0, 0, 0, 0, 0, 0], false⟩ =
      some ⟨.ConfigDesc 0 2, [⟨1, TYPE_CONFIGURATION, 0, 34⟩], []⟩ := by
  have h := config_desc_len_step 0 9 1 0 2 1
    ⟨[9, 2, 34, 0, 0, 0, 0, 0, 0], false⟩
    [] ⟨2, [34, 0, 0, 0, 0, 0, 0]⟩ 34 (by decide) (by decide) rfl
  rw [h]

/-- C4: for every state, a control-in buffer that is malformed at the point
that state parses it yields the `ParseError` state and issues no transfer. -/
theorem malformed_buffer_parse_error (a len dev nd : Nat)
    (st : DiscoveryState) (host : Host)
    (hmal : malformedFor (host.received.take len) st) :
    ∃ log, process_discovery (.ControlInData a len) dev st nd host =
      some ⟨.ParseError, [], log⟩ := by
  cases st with
  | DeviceDesc =>
    rcases hmal with h | ⟨rest, d, h1, h2⟩
    · exact ⟨[], by simp [process_discovery, h]⟩
    · exact ⟨notifyAll dev nd d, by simp [process_discovery, h1, h2]⟩
  | ConfigDescLen n m =>
    rcases hmal with h | ⟨rest, d, h1, h2⟩
    · exact ⟨[], by simp [process_discovery, h]⟩
    · exact ⟨[], by simp [process_discovery, h1, h2]⟩
  | ConfigDesc n m =>
    refine ⟨((walkFrames (host.received.take len)).1).flatMap
      (notifyAll dev nd), ?_⟩
    have h2 : (walkFrames (host.received.take len)).2 = false := hmal
    simp only [process_discovery]
    rw [h2]
    simp
  | Done => exact hmal.elim
  | ParseError => exact hmal.elim

/-- Witness for C4: an empty buffer in `ConfigDescLen` fails the frame
parse. -/
theorem malformed_buffer_parse_error_witness :
    ∃ log, process_discovery (.ControlInData 0 0) 1 (.ConfigDescLen 0 1) 0
      ⟨[], false⟩ = some ⟨.ParseError, [], log⟩ :=
  malformed_buffer_parse_error 0 0 1 0 (.ConfigDescLen 0 1) ⟨[], false⟩
    (Or.inl rfl)

/-- C8: a non-panicking call to `process` issues at most one control
transfer, never issues one on a step ending in a terminal state, and a call
from a terminal state panics (issuing nothing). -/
theorem at_most_one_transfer (ev : Event) (dev nd : Nat)
    (st : DiscoveryState) (host : Host) :
    (∀ out, process_discovery ev dev st nd host = some out →
      out.reqs.length ≤ 1 ∧
      (out.state.isTerminal = true → out.reqs = [])) ∧
    (st.isTerminal = true → process_discovery ev dev st nd host = none) := by
  constructor
  · intro out h
    cases st <;> cases ev <;> simp only [process_discovery] at h <;>
      repeat' split at h
    all_goals (try cases h)
    all_goals simp_all [DiscoveryState.isTerminal]
  · intro hterm
    cases st <;> simp_all [DiscoveryState.isTerminal, process_discovery]

/-- Witness for C8: a concrete non-panicking step and a concrete panicking
terminal-state call. -/
theorem at_most_one_transfer_witness :
    ((StepOut.mk .DeviceDesc [] []).reqs.length ≤ 1 ∧
      ((StepOut.mk .DeviceDesc [] []).state.isTerminal = true →
        (StepOut.mk .DeviceDesc [] []).reqs = [])) ∧
    process_discovery (.Other 0) 1 .Done 0 ⟨[], false⟩ = none :=
  ⟨(at_most_one_transfer (.Other 0) 1 0 .DeviceDesc ⟨[], false⟩).1
      ⟨.DeviceDesc, [], []⟩ rfl,
   (at_most_one_transfer (.Other 0) 1 0 .Done ⟨[], false⟩).2 rfl⟩

/-- C10: `process` ignores the device-address field inside a control-in
event — two such events agreeing on the byte length produce identical
outcomes — and every issued request and driver call carries the caller's
`dev_addr` parameter. -/
theorem event_address_ignored (a1 a2 len dev nd : Nat)
    (st : DiscoveryState) (host : Host) :
    process_discovery (.ControlInData a1 len) dev st nd host =
      process_discovery (.ControlInData a2 len) dev st nd host ∧
    ∀ out, process_discovery (.ControlInData a1 len) dev st nd host =
        some out →
      (∀ r ∈ out.reqs, r.dev = dev) ∧ (∀ c ∈ out.log, c.dev = dev) := by
  constructor
  · cases st <;> rfl
  · intro out h
    exact process_dev_fields (.ControlInData a1 len) dev nd st host out h

/-- Witness for C10 at a concrete state and two event addresses. -/
theorem event_address_ignored_witness :
    process_discovery (.ControlInData 5 0) 1 .DeviceDesc 0 ⟨[], false⟩ =
      process_discovery (.ControlInData 9 0) 1 .DeviceDesc 0 ⟨[], false⟩ ∧
    ((∀ r ∈ (StepOut.mk .ParseError [] []).reqs, r.dev = 1) ∧
      ∀ c ∈ (StepOut.mk .ParseError [] []).log, c.dev = 1) :=
  ⟨(event_address_ignored 5 9 0 1 0 .DeviceDesc ⟨[], false⟩).1,
   (event_address_ignored 5 9 0 1 0 .DeviceDesc ⟨[], false⟩).2
      ⟨.ParseError, [], []⟩ (by decide)⟩

/-- C1: in `ConfigDesc(n, m)` (with `m` a byte, as in the source), a
control-in buffer whose frame walk succeeds with frame list `frames`
dispatches exactly `frames.length` notify calls per driver, in buffer order;
if `n + 1 < m` the step returns `ConfigDescLen(n+1, m)` and issues
GET_DESCRIPTOR(Configuration, index `n+1`, length 9); if `n + 1 = m` it
returns `Done` and issues no transfer. -/
theorem config_desc_step (a len dev n m nd : Nat) (host : Host)
    (frames : List Descriptor)
    (hm : m < 256)
    (hwalk : walkFrames (host.received.take len) = (frames, true))
    (hbus : host.busBusy = false) :
    (n + 1 < m →
      process_discovery (.ControlInData a len) dev (.ConfigDesc n m) nd host =
        some ⟨.ConfigDescLen (n + 1) m,
              [⟨dev, TYPE_CONFIGURATION, n + 1, 9⟩],
              frames.flatMap (notifyAll dev nd)⟩) ∧
    (n + 1 = m →
      process_discovery (.ControlInData a len) dev (.ConfigDesc n m) nd host =
        some ⟨.Done, [], frames.flatMap (notifyAll dev nd)⟩) ∧
    ∀ i, i < nd →
      ((frames.flatMap (notifyAll dev nd)).filter
          (fun c => c.drv == i)).length = frames.length := by
  refine ⟨?_, ?_, ?_⟩
  · intro hlt
    have hmod : (n + 1) % 256 = n + 1 := Nat.mod_eq_of_lt (by omega)
    simp [process_discovery, hwalk, hmod, hlt, hbus]
  · intro heq
    subst heq
    have hmod : (n + 1) % 256 = n + 1 := Nat.mod_eq_of_lt hm
    simp [process_discovery, hwalk, hmod]
  · intro i hi
    exact countPerDriver dev nd i hi frames

/-- Witness for C1: a buffer of two concatenated frames in
`ConfigDesc(0, 2)` with one driver: two notify calls, transition to
`ConfigDescLen(1, 2)` with a 9-byte request for index 1. -/
theorem config_desc_step_witness :
    process_discovery (.ControlInData 0 7) 1 (.ConfigDesc 0 2) 1
        ⟨[4, 2, 0, 0, 3, 5, 0], false⟩ =
      some ⟨.ConfigDescLen 1 2, [⟨1, TYPE_CONFIGURATION, 1, 9⟩],
            [⟨0, 1, 2, [0, 0]⟩, ⟨0, 1, 5, [0]⟩]⟩ := by
  have h := (config_desc_step 0 7 1 0 2 1 ⟨[4, 2, 0, 0, 3, 5, 0], false⟩
    [⟨2, [0, 0]⟩, ⟨5, [0]⟩] (by decide) (by decide) rfl).1 (by decide)
  rw [h]
  decide

/-- Counterexample to C5: a device descriptor reporting zero configurations
makes `ConfigDescLen(0, 0)` reachable, where the claimed invariant `n < m`
fails. -/
theorem reachable_invariant_fails :
    Reachable (.ConfigDescLen 0 0) ∧ ¬ (0 < 0) := by
  constructor
  · have h : process_discovery (.ControlInData 0 18) 0 .DeviceDesc 0
        ⟨[18, 1, 0, 0, 0, 0, 0, 0, 0, 0, 0, 0, 0, 0, 0, 0, 0, 0], false⟩ =
        some ⟨.ConfigDescLen 0 0, [⟨0, TYPE_CONFIGURATION, 0, 9⟩], []⟩ := by
      decide
    exact Reachable.step .DeviceDesc (.ControlInData 0 18) 0 0
      ⟨[18, 1, 0, 0, 0, 0, 0, 0, 0, 0, 0, 0, 0, 0, 0, 0, 0, 0], false⟩
      ⟨.ConfigDescLen 0 0, [⟨0, TYPE_CONFIGURATION, 0, 9⟩], []⟩
      Reachable.start h
  · decide

/-- C5 (amended): every reachable `ConfigDescLen(n, m)`/`ConfigDesc(n, m)`
state satisfies `n < m` — except that a device descriptor reporting zero
configurations yields `n = m = 0`; `m` is the configuration count read from
the device descriptor and never changes across transitions after leaving
`DeviceDesc`. -/
theorem reachable_invariant :
    (∀ s, Reachable s → stateInv s) ∧
    (∀ ev dev nd host n m out,
      process_discovery ev dev (.ConfigDescLen n m) nd host = some out →
      ∀ n' m', (out.state = .ConfigDescLen n' m' ∨
        out.state = .ConfigDesc n' m') → m' = m) ∧
    (∀ ev dev nd host n m out,
      process_discovery ev dev (.ConfigDesc n m) nd host = some out →
      ∀ n' m', (out.state = .ConfigDescLen n' m' ∨
        out.state = .ConfigDesc n' m') → m' = m) ∧
    (∀ ev dev nd host out,
      process_discovery ev dev .DeviceDesc nd host = some out →
      ∀ n' m', (out.state = .ConfigDescLen n' m' ∨
        out.state = .ConfigDesc n' m') →
      ∃ al l rest d dd, ev = .ControlInData al l ∧
        any_descriptor (host.received.take l) = some (rest, d) ∧
        device_descriptor d.data = some dd ∧
        n' = 0 ∧ m' = dd.num_configurations) := by
  refine ⟨?_, ?_, ?_, ?_⟩
  · intro s hs
    induction hs with
    | start => trivial
    | step s ev dev nd host out _ hstep ih =>
      exact stateInv_step ev dev nd s host out hstep ih
  · intro ev dev nd host n m out h n' m' hst
    cases ev <;> simp only [process_discovery] at h <;> repeat' split at h
    all_goals (try cases h)
    all_goals (rcases hst with h1 | h1 <;> cases h1 <;> rfl)
  · intro ev dev nd host n m out h n' m' hst
    cases ev <;> simp only [process_discovery] at h <;> repeat' split at h
    all_goals (try cases h)
    all_goals (rcases hst with h1 | h1 <;> cases h1 <;> rfl)
  · intro ev dev nd host out h n' m' hst
    cases ev with
    | Other t =>
      simp only [process_discovery] at h
      cases h
      rcases hst with h1 | h1 <;> cases h1
    | ControlInData al l =>
      simp only [process_discovery] at h
      cases hp : any_descriptor (host.received.take l) with
      | none =>
        simp only [hp] at h
        cases h
        rcases hst with h1 | h1 <;> cases h1
      | some rd =>
        obtain ⟨rest, d⟩ := rd
        simp only [hp] at h
        cases hd : device_descriptor d.data with
        | none =>
          simp only [hd] at h
          cases h
          rcases hst with h1 | h1 <;> cases h1
        | some dd =>
          simp only [hd] at h
          cases hbus : host.busBusy with
          | true => simp only [hbus] at h; cases h
          | false =>
            simp only [hbus, Bool.false_eq_true, if_false] at h
            cases h
            rcases hst with h1 | h1 <;> cases h1
            exact ⟨al, l, rest, d, dd, rfl, hp, hd, rfl, rfl⟩

/-- Witness for amended C5: the invariant holds on a concretely reached
`ConfigDescLen(0, 2)` state. -/
theorem reachable_invariant_witness : stateInv (.ConfigDescLen 0 2) :=
  reachable_invariant.1 _
    (Reachable.step .DeviceDesc (.ControlInData 0 18) 0 0
      ⟨[18, 1, 0, 0, 0, 0, 0, 0, 0, 0, 0, 0, 0, 0, 0, 0, 0, 2], false⟩
      ⟨.ConfigDescLen 0 2, [⟨0, TYPE_CONFIGURATION, 0, 9⟩], []⟩
      Reachable.start (by decide))

end Usbh
